import Mathlib

/-!
Verification of `src/force_budget.py` (obinexus/opensense-motion).

The program is a single pure function `apply_force` that clamps a desired
force by a safety limit and by the efficiency-scaled actuator force, plus a
demonstration call whose result is printed as one line of text.

All arithmetic in the source is Python float arithmetic on the literals
appearing in the program; every value involved is an exact decimal, so we
embed the numbers as rationals (`ℚ`), on which all the example computations
are exact and decidable.
-/

namespace ForceBudget

/-- Embedding of `apply_force` from `src/force_budget.py`, lines 1–4:

    def apply_force(desired_force, safe_limit, actuator_force, efficiency):
        effective_force = efficiency * actuator_force
        return min(desired_force, safe_limit, effective_force)

Python's three-argument `min` is the leftmost minimum, numerically equal to
the nested binary minimum. -/
def apply_force (desired_force safe_limit actuator_force efficiency : ℚ) : ℚ :=
  let effective_force := efficiency * actuator_force
  min desired_force (min safe_limit effective_force)

/-- Embedding of the demonstration call, lines 7–10 of the source:
`force = apply_force(desired_force=2.0, safe_limit=3.0, actuator_force=5.0, efficiency=0.8)`. -/
def force : ℚ := apply_force 2.0 3.0 5.0 0.8

/-- Fractional digits of `rem / den` (with `rem < den`), produced by the
usual long-division loop; `fuel` bounds the number of digits, which is
enough for every terminating decimal met in this program. -/
def fracDigits (fuel : Nat) (rem den : Nat) : String :=
  match fuel with
  | 0 => ""
  | fuel + 1 =>
    if rem = 0 then ""
    else
      let r10 := rem * 10
      toString (r10 / den) ++ fracDigits fuel (r10 % den) den

/-- The text Python produces for a float holding an exact decimal value:
the integer part, a dot, and the fractional digits (a trailing `0` when the
value is integral, e.g. `2.0`). -/
def pyFloatStr (q : ℚ) : String :=
  let sign := if q < 0 then "-" else ""
  let n := q.num.natAbs
  let d := q.den
  let intPart := toString (n / d)
  let rem := n % d
  let frac := if rem = 0 then "0" else fracDigits 32 rem d
  sign ++ intPart ++ "." ++ frac

/-- Embedding of line 12 of the source,
`print("Final output force:", force, "N")`: Python's `print` joins its
arguments with single spaces and emits one line. -/
def outputLine : String :=
  String.intercalate " " ["Final output force:", pyFloatStr force, "N"]

/-- The whole standard output of the program: the single `print` statement
produces exactly one line. -/
def programOutput : List String := [outputLine]

end ForceBudget

namespace ForceBudget

/-- C1: for all rationals `a b c e`, `apply_force a b c e` is exactly
`min a (min b (e * c))`: the function first forms the effective force
`e * c` and then takes the minimum of the three candidates. -/
theorem C1_apply_force_eq_min (a b c e : ℚ) :
    apply_force a b c e = min a (min b (e * c)) := rfl

/-- C2: the returned value is at most each of the three candidate
quantities: the desired force, the safety limit, and the efficiency-scaled
actuator force. -/
theorem C2_le_each_candidate (a b c e : ℚ) :
    apply_force a b c e ≤ a ∧ apply_force a b c e ≤ b ∧
      apply_force a b c e ≤ e * c := by
  refine ⟨min_le_left _ _, ?_, ?_⟩
  · exact le_trans (min_le_right _ _) (min_le_left _ _)
  · exact le_trans (min_le_right _ _) (min_le_right _ _)

/-- C3: `apply_force` is non-decreasing in its first argument when the
other three are held fixed. -/
theorem C3_mono_in_desired (b c e a1 a2 : ℚ) (h : a1 ≤ a2) :
    apply_force a1 b c e ≤ apply_force a2 b c e :=
  min_le_min h le_rfl

/-- Witness for C3 at the concrete inputs `a1 = 1`, `a2 = 6`,
`b = 3`, `c = 5`, `e = 0.8`. -/
theorem C3_mono_in_desired_witness :
    (1 : ℚ) ≤ 6 ∧ apply_force 1 3 5 0.8 ≤ apply_force 6 3 5 0.8 :=
  ⟨by norm_num, C3_mono_in_desired 3 5 0.8 1 6 (by norm_num)⟩

/-- C4: a zero efficiency forces the effective actuator force to zero:
`apply_force a b c 0 = min a (min b 0)` for every `a b c`. -/
theorem C4_zero_efficiency (a b c : ℚ) :
    apply_force a b c 0 = min a (min b 0) := by
  simp [apply_force]

/-- C5: on the demonstration inputs (2.0, 3.0, 5.0, 0.8) the function
returns 2.0 — the effective force is 0.8 * 5.0 = 4.0 and
min(2.0, 3.0, 4.0) = 2.0 — and the program prints exactly one line,
`Final output force: 2.0 N`, to standard output. -/
theorem C5_demo_run :
    force = 2 ∧ programOutput = ["Final output force: 2.0 N"] := by
  have hforce : force = 2 := by norm_num [force, apply_force]
  refine ⟨hforce, ?_⟩
  simp only [programOutput, outputLine, hforce]
  decide

/-- C6: with inputs (10.0, 3.0, 5.0, 0.8) the safety limit 3.0 is the
smallest candidate and is the value returned. -/
theorem C6_safe_limit_binds : apply_force 10.0 3.0 5.0 0.8 = 3.0 := by
  norm_num [apply_force]

/-- C7: with inputs (10.0, 10.0, 5.0, 0.5) the efficiency-scaled actuator
force 0.5 * 5.0 = 2.5 is the smallest candidate and is the value
returned. -/
theorem C7_effective_force_binds : apply_force 10.0 10.0 5.0 0.5 = 2.5 := by
  norm_num [apply_force]

/-- C8: `apply_force` is deterministic and side-effect free: two calls on
identical inputs return identical outputs. -/
theorem C8_deterministic (a1 b1 c1 e1 a2 b2 c2 e2 : ℚ)
    (ha : a1 = a2) (hb : b1 = b2) (hc : c1 = c2) (he : e1 = e2) :
    apply_force a1 b1 c1 e1 = apply_force a2 b2 c2 e2 := by
  rw [ha, hb, hc, he]

/-- Witness for C8 at the concrete inputs (2, 3, 5, 0.8) for both calls. -/
theorem C8_deterministic_witness :
    apply_force 2 3 5 0.8 = apply_force 2 3 5 0.8 :=
  C8_deterministic 2 3 5 0.8 2 3 5 0.8 rfl rfl rfl rfl

/-- C9: `apply_force` performs no validation and has no error branch: on
every quadruple of rational inputs — negative, zero, or with efficiency
outside `[0, 1]` included — it returns a value, namely the minimum of the
three candidates. -/
theorem C9_total_no_error (a b c e : ℚ) :
    ∃ r : ℚ, apply_force a b c e = r ∧ r = min a (min b (e * c)) :=
  ⟨apply_force a b c e, rfl, rfl⟩

/-- C10: the returned value always equals one of the three candidate
quantities — the desired force, the safety limit, or the efficiency-scaled
actuator force — and re-clamping the result is a fixed point. -/
theorem C10_result_is_a_candidate_and_fixed_point (a b c e : ℚ) :
    (apply_force a b c e = a ∨ apply_force a b c e = b ∨
        apply_force a b c e = e * c) ∧
      apply_force (apply_force a b c e) b c e = apply_force a b c e := by
  constructor
  · rcases min_cases a (min b (e * c)) with ⟨h1, _⟩ | ⟨h1, _⟩
    · exact Or.inl h1
    · rcases min_cases b (e * c) with ⟨h2, _⟩ | ⟨h2, _⟩
      · exact Or.inr (Or.inl (h1.trans h2))
      · exact Or.inr (Or.inr (h1.trans h2))
  · exact min_eq_left (min_le_right a (min b (e * c)))

end ForceBudget
